import Mathlib

/-!
Shallow embedding of `src/main.py` of the `oneiromancer` repository
(a Telegram bot relaying dream descriptions to an LLM).

External effects (Telegram API calls, Groq API calls, the file system)
are modelled by an environment `Env` fixing the outcome of each kind of
remote call, a state `S` holding the temporary-file flag and an event
trace, and the monad `M` of state transformers that may raise a Python
exception (`Err`).  Python `try/except Exception` becomes `tryCatch`,
`try/finally` becomes `tryFinally`.  Every external call appends an
`Event` to the trace, so ordering and delivery claims are statements
about the trace produced by a handler run.
-/

namespace Bot

instance {ε α : Type} [DecidableEq ε] [DecidableEq α] : DecidableEq (Except ε α) :=
  fun a b =>
    match a, b with
    | Except.ok x, Except.ok y =>
        if h : x = y then isTrue (by rw [h])
        else isFalse (fun hc => h (Except.ok.inj hc))
    | Except.ok _, Except.error _ => isFalse (fun hc => Except.noConfusion hc)
    | Except.error _, Except.ok _ => isFalse (fun hc => Except.noConfusion hc)
    | Except.error x, Except.error y =>
        if h : x = y then isTrue (by rw [h])
        else isFalse (fun hc => h (Except.error.inj hc))

/-- Python exceptions distinguished by the embedding. -/
inductive Err where
  | telegram : Err
  | groq : String → Err
  | fileNotFound : Err
  | jsonDecode : Err
  deriving Repr, DecidableEq

/-- One observable external call made by a handler, with its outcome.
`reply` records `update.message.reply_text(content, parse_mode)`;
`chatAction` records `context.bot.send_chat_action(...)`;
`download` records `get_file` + `download_to_drive(custom_path=path)`;
`transcribe` records `client.audio.transcriptions.create(...)`;
`complete` records `client.chat.completions.create(...)` with its two
messages. -/
inductive Event where
  | reply (content : String) (parseMode : Option String) (ok : Bool)
  | chatAction (ok : Bool)
  | download (fileId : String) (path : String) (ok : Bool)
  | transcribe (path : String) (res : Except String String)
  | complete (systemMsg userMsg : String) (res : Except String String)
  deriving Repr, DecidableEq

/-- Local state of one handler run: whether the temporary audio file
`temp_voice.ogg` currently exists on disk, and the trace of external
calls made so far. -/
structure S where
  tempExists : Bool
  trace : List Event
  deriving Repr, DecidableEq

/-- Outcomes of the external services for a run: whether a
`reply_text` with a given content and parse mode succeeds, whether the
typing chat action succeeds, whether the voice-file download succeeds,
and the results of the transcription and chat-completion endpoints. -/
structure Env where
  replyOk : String → Option String → Bool
  chatActionOk : Bool
  downloadOk : Bool
  transcribeRes : Except String String
  completionRes : Except String String

/-- State-and-exception monad: Python control flow with mutable trace. -/
def M (α : Type) : Type := S → Except Err α × S

def pureM {α : Type} (a : α) : M α := fun s => (Except.ok a, s)

def bindM {α β : Type} (m : M α) (f : α → M β) : M β := fun s =>
  match m s with
  | (Except.ok a, s1) => f a s1
  | (Except.error e, s1) => (Except.error e, s1)

/-- Python `try: body except Exception: handler` (the source only ever
catches the blanket `Exception`). -/
def tryCatch {α : Type} (body handler : M α) : M α := fun s =>
  match body s with
  | (Except.ok a, s1) => (Except.ok a, s1)
  | (Except.error _, s1) => handler s1

/-- Python `try: body finally: fin`; `fin` runs on both exits and its
own exception (never raised by the cleanup used here) would replace the
body's. -/
def tryFinally {α : Type} (body : M α) (fin : M Unit) : M α := fun s =>
  match body s with
  | (r, s1) =>
    match fin s1 with
    | (Except.ok _, s2) => (r, s2)
    | (Except.error e, s2) => (Except.error e, s2)

def emit (e : Event) (s : S) : S := { s with trace := s.trace ++ [e] }

/-- `await update.message.reply_text(content, parse_mode=parseMode)`. -/
def reply_text (env : Env) (content : String) (parseMode : Option String) : M Unit := fun s =>
  if env.replyOk content parseMode then
    (Except.ok (), emit (Event.reply content parseMode true) s)
  else
    (Except.error Err.telegram, emit (Event.reply content parseMode false) s)

/-- `await context.bot.send_chat_action(chat_id=..., action='typing')`. -/
def send_chat_action (env : Env) : M Unit := fun s =>
  if env.chatActionOk then
    (Except.ok (), emit (Event.chatAction true) s)
  else
    (Except.error Err.telegram, emit (Event.chatAction false) s)

/-- `await context.bot.get_file(...)` followed by
`await voice_file.download_to_drive(custom_path=path)`: on success the
temporary file now exists on disk. -/
def download_to_drive (env : Env) (fileId path : String) : M Unit := fun s =>
  if env.downloadOk then
    (Except.ok (), { emit (Event.download fileId path true) s with tempExists := true })
  else
    (Except.error Err.telegram, emit (Event.download fileId path false) s)

/-- `open(temp_ogg_path, "rb")` + `client.audio.transcriptions.create(...)`:
opening the file raises if it does not exist (no API call is then made);
otherwise the endpoint returns a transcript or fails. -/
def transcriptions_create (env : Env) (path : String) : M String := fun s =>
  if s.tempExists then
    match env.transcribeRes with
    | Except.ok t => (Except.ok t, emit (Event.transcribe path (Except.ok t)) s)
    | Except.error e =>
        (Except.error (Err.groq e), emit (Event.transcribe path (Except.error e)) s)
  else
    (Except.error Err.fileNotFound, s)

/-- `client.chat.completions.create(messages=[system, user], ...)`,
returning `chat_completion.choices[0].message.content` on success. -/
def chat_completions_create (env : Env) (systemMsg userMsg : String) : M String := fun s =>
  match env.completionRes with
  | Except.ok a =>
      (Except.ok a, emit (Event.complete systemMsg userMsg (Except.ok a)) s)
  | Except.error e =>
      (Except.error (Err.groq e), emit (Event.complete systemMsg userMsg (Except.error e)) s)

/-- The `finally` cleanup: `if temp_ogg_path.exists(): os.remove(temp_ogg_path)`.
Observable effect: the temporary file no longer exists. -/
def removeTempFile : M Unit := fun s => (Except.ok (), { s with tempExists := false })

/-- Python `str.format` with a single named placeholder, as used on the
two templates of the bundle: each occurrence of the placeholder
`\x7bkey\x7d` in `tpl` is replaced by `value`. -/
def pyFormat (tpl key value : String) : String :=
  tpl.replace ("\x7b" ++ key ++ "\x7d") value

/-- The text-bundle keys the dispatch core dereferences (`TEXTS[...][...]`),
as a total record: the configuration with every referenced key present. -/
structure Texts where
  welcome : String
  privacy : String
  processing_audio : String
  transcription_done : String
  generic_error : String
  audio_error : String
  footer_disclaimer : String
  system_prompt : String
  user_input_wrapper : String
  deriving Repr, DecidableEq

/-- `generate_jungian_response(user_text, update)` (src/main.py lines 65-103):
wrap the input, call the completion endpoint, append the disclaimer,
send with Markdown, fall back to a plain send, and on any exception in
all of the above reply with the generic error text. -/
def generate_jungian_response (env : Env) (T : Texts) (user_text : String) : M Unit :=
  tryCatch
    (bindM
      (chat_completions_create env T.system_prompt
        (pyFormat T.user_input_wrapper "user_input" user_text))
      (fun analysis =>
        tryCatch
          (reply_text env (analysis ++ T.footer_disclaimer) (some "Markdown"))
          (reply_text env (analysis ++ T.footer_disclaimer) none)))
    (reply_text env T.generic_error none)

/-- `start_command` (src/main.py lines 107-109). -/
def start_command (env : Env) (T : Texts) : M Unit :=
  reply_text env T.welcome (some "Markdown")

/-- `privacy_command` (src/main.py lines 111-113). -/
def privacy_command (env : Env) (T : Texts) : M Unit :=
  reply_text env T.privacy (some "Markdown")

/-- The temporary path `BASE_DIR / "temp_voice.ogg"` (src/main.py line 125). -/
def temp_ogg_path (baseDir : String) : String := baseDir ++ "/temp_voice.ogg"

/-- `handle_voice_message` (src/main.py lines 115-158): processing
feedback, then `try` download / transcribe / transcription feedback /
generation, `except` reply with the audio error text, `finally` remove
the temporary file if it exists. -/
def handle_voice_message (env : Env) (T : Texts) (baseDir fileId : String) : M Unit :=
  bindM (reply_text env T.processing_audio none) (fun _ =>
    tryFinally
      (tryCatch
        (bindM (download_to_drive env fileId (temp_ogg_path baseDir)) (fun _ =>
          bindM (transcriptions_create env (temp_ogg_path baseDir)) (fun transcribed_text =>
            bindM
              (reply_text env (pyFormat T.transcription_done "text" transcribed_text)
                (some "Markdown"))
              (fun _ => generate_jungian_response env T transcribed_text))))
        (reply_text env T.audio_error none))
      removeTempFile)

/-- `handle_text_message` (src/main.py lines 160-166): typing action,
then hand the body to the generation routine. -/
def handle_text_message (env : Env) (T : Texts) (user_input : String) : M Unit :=
  bindM (send_chat_action env) (fun _ =>
    generate_jungian_response env T user_input)

/-- The raw parsed JSON resource: a mapping of sections to key/value
pairs, in which any key may be absent. -/
def RawTexts : Type := List (String × List (String × String))

/-- The three outcomes of reading `resources/texts.json` at startup. -/
inductive ResourceFile where
  | missingFile
  | badJson
  | parsed (raw : RawTexts)

/-- `load_texts()` (src/main.py lines 48-58): re-raises on missing file
or JSON decode error, and otherwise returns the parsed mapping as-is —
no key of the mapping is inspected. -/
def load_texts : ResourceFile → Except Err RawTexts
  | ResourceFile.missingFile => Except.error Err.fileNotFound
  | ResourceFile.badJson => Except.error Err.jsonDecode
  | ResourceFile.parsed raw => Except.ok raw

/-- `TEXTS[sect][key]` lookup in the raw mapping. -/
def lookupKey (raw : RawTexts) (sect key : String) : Option String :=
  match raw.lookup sect with
  | some kvs => kvs.lookup key
  | none => none

/-- Every `TEXTS[...][...]` dereference appearing in the handlers. -/
def referencedKeys : List (String × String) :=
  [("messages", "welcome"), ("messages", "privacy"),
   ("messages", "processing_audio"), ("messages", "transcription_done"),
   ("messages", "footer_disclaimer"),
   ("errors", "generic_error"), ("errors", "audio_error"),
   ("prompts", "system_prompt"), ("prompts", "user_input_wrapper")]

/-! ### Explicit run functions

`genRun` and `voiceRun` compute, for a given environment, the result
and the event list a handler produces; the characterization lemmas
below prove them equal to the monadic handlers, so every claim reduces
to a statement about explicit lists. -/

/-- Result and events of `generate_jungian_response` for a given
environment. -/
def genRun (env : Env) (T : Texts) (user_text : String) : Except Err Unit × List Event :=
  let wrapped := pyFormat T.user_input_wrapper "user_input" user_text
  let genericRes : Except Err Unit :=
    if env.replyOk T.generic_error none then Except.ok () else Except.error Err.telegram
  match env.completionRes with
  | Except.error e =>
      (genericRes,
       [Event.complete T.system_prompt wrapped (Except.error e),
        Event.reply T.generic_error none (env.replyOk T.generic_error none)])
  | Except.ok analysis =>
      let full := analysis ++ T.footer_disclaimer
      if env.replyOk full (some "Markdown") then
        (Except.ok (),
         [Event.complete T.system_prompt wrapped (Except.ok analysis),
          Event.reply full (some "Markdown") true])
      else if env.replyOk full none then
        (Except.ok (),
         [Event.complete T.system_prompt wrapped (Except.ok analysis),
          Event.reply full (some "Markdown") false,
          Event.reply full none true])
      else
        (genericRes,
         [Event.complete T.system_prompt wrapped (Except.ok analysis),
          Event.reply full (some "Markdown") false,
          Event.reply full none false,
          Event.reply T.generic_error none (env.replyOk T.generic_error none)])

theorem gen_spec (env : Env) (T : Texts) (u : String) (s : S) :
    generate_jungian_response env T u s =
      ((genRun env T u).1, ⟨s.tempExists, s.trace ++ (genRun env T u).2⟩) := by
  unfold generate_jungian_response genRun
  cases hc : env.completionRes with
  | error e =>
      cases hg : env.replyOk T.generic_error none <;>
        simp [tryCatch, bindM, chat_completions_create, reply_text, emit, hc, hg]
  | ok analysis =>
      cases hm : env.replyOk (analysis ++ T.footer_disclaimer) (some "Markdown") with
      | true =>
          simp [tryCatch, bindM, chat_completions_create, reply_text, emit, hc, hm]
      | false =>
          cases hp : env.replyOk (analysis ++ T.footer_disclaimer) none with
          | true =>
              simp [tryCatch, bindM, chat_completions_create, reply_text, emit, hc, hm, hp]
          | false =>
              cases hg : env.replyOk T.generic_error none <;>
                simp [tryCatch, bindM, chat_completions_create, reply_text, emit,
                  hc, hm, hp, hg]

/-- Result, final temporary-file flag, and events of
`handle_voice_message` for a given environment and initial flag. -/
def voiceRun (env : Env) (T : Texts) (baseDir fileId : String) (temp0 : Bool) :
    Except Err Unit × Bool × List Event :=
  let path := temp_ogg_path baseDir
  let audioFlag := env.replyOk T.audio_error none
  let audioRes : Except Err Unit :=
    if audioFlag then Except.ok () else Except.error Err.telegram
  if env.replyOk T.processing_audio none then
    if env.downloadOk then
      match env.transcribeRes with
      | Except.error e =>
          (audioRes, false,
           [Event.reply T.processing_audio none true,
            Event.download fileId path true,
            Event.transcribe path (Except.error e),
            Event.reply T.audio_error none audioFlag])
      | Except.ok t =>
          let feedback := pyFormat T.transcription_done "text" t
          if env.replyOk feedback (some "Markdown") then
            let pre :=
              [Event.reply T.processing_audio none true,
               Event.download fileId path true,
               Event.transcribe path (Except.ok t),
               Event.reply feedback (some "Markdown") true]
            match (genRun env T t).1 with
            | Except.ok _ => (Except.ok (), false, pre ++ (genRun env T t).2)
            | Except.error _ =>
                (audioRes, false,
                 pre ++ (genRun env T t).2 ++ [Event.reply T.audio_error none audioFlag])
          else
            (audioRes, false,
             [Event.reply T.processing_audio none true,
              Event.download fileId path true,
              Event.transcribe path (Except.ok t),
              Event.reply feedback (some "Markdown") false,
              Event.reply T.audio_error none audioFlag])
    else
      (audioRes, false,
       [Event.reply T.processing_audio none true,
        Event.download fileId path false,
        Event.reply T.audio_error none audioFlag])
  else
    (Except.error Err.telegram, temp0, [Event.reply T.processing_audio none false])

theorem voice_spec (env : Env) (T : Texts) (baseDir fileId : String) (s : S) :
    handle_voice_message env T baseDir fileId s =
      ((voiceRun env T baseDir fileId s.tempExists).1,
       ⟨(voiceRun env T baseDir fileId s.tempExists).2.1,
        s.trace ++ (voiceRun env T baseDir fileId s.tempExists).2.2⟩) := by
  unfold handle_voice_message voiceRun
  cases hp : env.replyOk T.processing_audio none with
  | false => simp [bindM, reply_text, emit, hp]
  | true =>
    cases hd : env.downloadOk with
    | false =>
        cases ha : env.replyOk T.audio_error none <;>
          simp [bindM, tryCatch, tryFinally, reply_text, download_to_drive,
            removeTempFile, emit, hp, hd, ha]
    | true =>
      cases ht : env.transcribeRes with
      | error e =>
          cases ha : env.replyOk T.audio_error none <;>
            simp [bindM, tryCatch, tryFinally, reply_text, download_to_drive,
              transcriptions_create, removeTempFile, emit, hp, hd, ht, ha]
      | ok t =>
        cases hf : env.replyOk (pyFormat T.transcription_done "text" t) (some "Markdown") with
        | false =>
            cases ha : env.replyOk T.audio_error none <;>
              simp [bindM, tryCatch, tryFinally, reply_text, download_to_drive,
                transcriptions_create, removeTempFile, emit, hp, hd, ht, hf, ha]
        | true =>
          cases hg : (genRun env T t).1 with
          | ok u =>
              simp [bindM, tryCatch, tryFinally, reply_text, download_to_drive,
                transcriptions_create, removeTempFile, emit, gen_spec,
                hp, hd, ht, hf, hg]
          | error e =>
              cases ha : env.replyOk T.audio_error none <;>
                simp [bindM, tryCatch, tryFinally, reply_text, download_to_drive,
                  transcriptions_create, removeTempFile, emit, gen_spec,
                  hp, hd, ht, hf, hg, ha]

/-- Result and events of `handle_text_message` for a given environment. -/
def textRun (env : Env) (T : Texts) (user_input : String) : Except Err Unit × List Event :=
  if env.chatActionOk then
    ((genRun env T user_input).1, Event.chatAction true :: (genRun env T user_input).2)
  else
    (Except.error Err.telegram, [Event.chatAction false])

theorem text_spec (env : Env) (T : Texts) (u : String) (s : S) :
    handle_text_message env T u s =
      ((textRun env T u).1, ⟨s.tempExists, s.trace ++ (textRun env T u).2⟩) := by
  unfold handle_text_message textRun
  cases hc : env.chatActionOk with
  | false => simp [bindM, send_chat_action, emit, hc]
  | true => simp [bindM, send_chat_action, emit, hc, gen_spec]

/-! ### Trace observations -/

/-- Number of reply attempts with the given content and parse mode. -/
def countReplies (content : String) (mode : Option String) (t : List Event) : Nat :=
  t.countP (fun e => match e with
    | Event.reply c m _ => c == content && m == mode
    | _ => false)

/-- Number of reply attempts with the given content, in any mode. -/
def countRepliesContent (content : String) (t : List Event) : Nat :=
  t.countP (fun e => match e with
    | Event.reply c _ _ => c == content
    | _ => false)

def isCompletionCall : Event → Bool
  | Event.complete _ _ _ => true
  | _ => false

/-- Projection of a trace onto the three core remote steps of the voice
pipeline: download (0), transcription (1), completion (2). -/
def coreKinds (t : List Event) : List Nat :=
  t.filterMap (fun e => match e with
    | Event.download _ _ _ => some 0
    | Event.transcribe _ _ => some 1
    | Event.complete _ _ _ => some 2
    | _ => none)

/-- The core steps happened in pipeline order, each at most once. -/
def seqOK (l : List Nat) : Bool :=
  l == ([] : List Nat) || l == [0] || l == [0, 1] || l == [0, 1, 2]

/-- The custom download path of every download call in a trace. -/
def downloadPaths (t : List Event) : List String :=
  t.filterMap (fun e => match e with
    | Event.download _ p _ => some p
    | _ => none)

/-! ### Concrete environments and a concrete bundle, for witnesses and
counterexamples -/

/-- A bundle with every referenced key present (placeholders written in
the templates as in `resources/texts.json`). -/
def testTexts : Texts :=
  { welcome := "W", privacy := "P", processing_audio := "PA",
    transcription_done := "TD \x7btext\x7d", generic_error := "GE",
    audio_error := "AE", footer_disclaimer := "F",
    system_prompt := "SP", user_input_wrapper := "U \x7buser_input\x7d" }

/-- Every external call succeeds. -/
def envAllOk : Env :=
  { replyOk := fun _ _ => true, chatActionOk := true, downloadOk := true,
    transcribeRes := Except.ok "T", completionRes := Except.ok "A" }

/-- Every Markdown-mode reply is rejected; plain replies succeed. -/
def envMdFail : Env :=
  { replyOk := fun _ m => m == (none : Option String), chatActionOk := true,
    downloadOk := true, transcribeRes := Except.ok "T",
    completionRes := Except.ok "A" }

/-- Only a reply whose content is the generic error text "GE" succeeds:
the Markdown send and the plain retry of the generated response both
fail, the generic-error reply succeeds. -/
def envPlainFailGenericOk : Env :=
  { replyOk := fun c _ => c == "GE", chatActionOk := true, downloadOk := true,
    transcribeRes := Except.ok "T", completionRes := Except.ok "A" }

/-- The voice-file download fails; everything else succeeds. -/
def envDlFail : Env :=
  { replyOk := fun _ _ => true, chatActionOk := true, downloadOk := false,
    transcribeRes := Except.ok "T", completionRes := Except.ok "A" }

/-- The typing chat action fails; everything else succeeds. -/
def envActionFail : Env :=
  { replyOk := fun _ _ => true, chatActionOk := false, downloadOk := true,
    transcribeRes := Except.ok "T", completionRes := Except.ok "A" }

/-! ### Claims -/

theorem voiceRun_tempAfter (env : Env) (T : Texts) (baseDir fileId : String)
    (temp0 : Bool) :
    (voiceRun env T baseDir fileId temp0).2.1 =
      if env.replyOk T.processing_audio none then false else temp0 := by
  unfold voiceRun
  cases hp : env.replyOk T.processing_audio none with
  | false => simp [hp]
  | true =>
    cases hd : env.downloadOk with
    | false => simp [hp, hd]
    | true =>
      cases ht : env.transcribeRes with
      | error e => simp [hp, hd, ht]
      | ok t =>
        cases hf : env.replyOk (pyFormat T.transcription_done "text" t) (some "Markdown") with
        | false => simp [hp, hd, ht, hf]
        | true =>
          cases hg : (genRun env T t).1 <;> simp [hp, hd, ht, hf, hg]

/-- C1: on every exit path of `handle_voice_message` — success,
download failure, transcription failure, or any exception raised in
between — the temporary audio file does not exist after the handler
returns (the file is absent initially; the handler may create it). -/
theorem C1_temp_file_absent_after_voice_handler
    (env : Env) (T : Texts) (baseDir fileId : String) (s : S)
    (h : s.tempExists = false) :
    ((handle_voice_message env T baseDir fileId s).2).tempExists = false := by
  rw [voice_spec]
  simp [voiceRun_tempAfter, h]

/-- C1 witness: a concrete run (all calls succeed) from a state without
the file ends without the file. -/
theorem C1_witness :
    (⟨false, []⟩ : S).tempExists = false ∧
    ((handle_voice_message envAllOk testTexts "base" "fid" ⟨false, []⟩).2).tempExists = false :=
  ⟨rfl, C1_temp_file_absent_after_voice_handler envAllOk testTexts "base" "fid" ⟨false, []⟩ rfl⟩

/-- C2 counterexample: a run in which the plain-mode retry of the
delivery raises and yet `generate_jungian_response` returns normally —
the outer exception handler absorbs the retry failure (and sends the
generic error text), so the claim that it propagates to the caller is
false. -/
theorem C2_counterexample :
    (generate_jungian_response envPlainFailGenericOk testTexts "x" ⟨false, []⟩).1 =
      Except.ok () ∧
    Event.reply ("A" ++ "F") (some "Markdown") false ∈
      (generate_jungian_response envPlainFailGenericOk testTexts "x" ⟨false, []⟩).2.trace ∧
    Event.reply ("A" ++ "F") none false ∈
      (generate_jungian_response envPlainFailGenericOk testTexts "x" ⟨false, []⟩).2.trace := by
  refine ⟨?_, ?_, ?_⟩ <;> decide

/-- C2 (amended): if the plain-mode retry of the delivery raises, the
error is caught by the routine's outer exception handler, which replies
with the generic error text; the routine raises to its caller only when
that generic-error reply itself also fails. -/
theorem C2_plain_retry_failure_absorbed_by_generic_fallback
    (env : Env) (T : Texts) (u analysis : String) (s : S)
    (hc : env.completionRes = Except.ok analysis)
    (hm : env.replyOk (analysis ++ T.footer_disclaimer) (some "Markdown") = false)
    (hp : env.replyOk (analysis ++ T.footer_disclaimer) none = false) :
    (generate_jungian_response env T u s).1 =
      (if env.replyOk T.generic_error none then Except.ok ()
       else Except.error Err.telegram) ∧
    Event.reply T.generic_error none (env.replyOk T.generic_error none) ∈
      (generate_jungian_response env T u s).2.trace := by
  rw [gen_spec]
  simp [genRun, hc, hm, hp]

/-- C2 witness: concrete run in which the retry fails, the generic
reply succeeds, and the routine returns normally. -/
theorem C2_witness :
    envPlainFailGenericOk.completionRes = Except.ok "A" ∧
    envPlainFailGenericOk.replyOk ("A" ++ testTexts.footer_disclaimer) (some "Markdown") = false ∧
    envPlainFailGenericOk.replyOk ("A" ++ testTexts.footer_disclaimer) none = false ∧
    ((generate_jungian_response envPlainFailGenericOk testTexts "y" ⟨false, []⟩).1 =
      (if envPlainFailGenericOk.replyOk testTexts.generic_error none then Except.ok ()
       else Except.error Err.telegram) ∧
     Event.reply testTexts.generic_error none
         (envPlainFailGenericOk.replyOk testTexts.generic_error none) ∈
       (generate_jungian_response envPlainFailGenericOk testTexts "y" ⟨false, []⟩).2.trace) :=
  ⟨rfl, by decide, by decide,
   C2_plain_retry_failure_absorbed_by_generic_fallback envPlainFailGenericOk testTexts
     "y" "A" ⟨false, []⟩ rfl (by decide) (by decide)⟩

/-- C3: when the Markdown-mode send of the generated response raises,
the routine retries exactly once in plain mode with byte-for-byte
identical content, and sends that content exactly twice in total
(original send plus one retry), whatever the retry's outcome; the
generic error text is assumed distinct from the response text. -/
theorem C3_exactly_one_plain_retry
    (env : Env) (T : Texts) (u analysis : String) (tmp : Bool)
    (hc : env.completionRes = Except.ok analysis)
    (hm : env.replyOk (analysis ++ T.footer_disclaimer) (some "Markdown") = false)
    (hne : T.generic_error ≠ analysis ++ T.footer_disclaimer) :
    countReplies (analysis ++ T.footer_disclaimer) none
        ((generate_jungian_response env T u ⟨tmp, []⟩).2.trace) = 1 ∧
    countRepliesContent (analysis ++ T.footer_disclaimer)
        ((generate_jungian_response env T u ⟨tmp, []⟩).2.trace) = 2 := by
  rw [gen_spec]
  cases hp : env.replyOk (analysis ++ T.footer_disclaimer) none with
  | true =>
      simp [genRun, countReplies, countRepliesContent, List.countP_cons, List.countP_nil,
        hc, hm, hp]
  | false =>
      simp [genRun, countReplies, countRepliesContent, List.countP_cons, List.countP_nil,
        hc, hm, hp, hne]

/-- C3 witness: concrete run (every Markdown send rejected, plain sends
succeed) with exactly one plain retry and two sends of the content. -/
theorem C3_witness :
    envMdFail.completionRes = Except.ok "A" ∧
    envMdFail.replyOk ("A" ++ testTexts.footer_disclaimer) (some "Markdown") = false ∧
    testTexts.generic_error ≠ "A" ++ testTexts.footer_disclaimer ∧
    (countReplies ("A" ++ testTexts.footer_disclaimer) none
        ((generate_jungian_response envMdFail testTexts "x" ⟨false, []⟩).2.trace) = 1 ∧
     countRepliesContent ("A" ++ testTexts.footer_disclaimer)
        ((generate_jungian_response envMdFail testTexts "x" ⟨false, []⟩).2.trace) = 2) :=
  ⟨rfl, rfl, by decide,
   C3_exactly_one_plain_retry envMdFail testTexts "x" "A" false rfl rfl (by decide)⟩

/-- C4 counterexample: the welcome reply is a single rich-mode send
with no plain fallback — when the transport rejects the Markdown render
the handler raises, so it is false that every rich-mode delivery goes
through the retry contract and never raises on a formatting error. -/
theorem C4_counterexample :
    start_command envMdFail testTexts ⟨false, []⟩ =
      (Except.error Err.telegram,
       ⟨false, [Event.reply testTexts.welcome (some "Markdown") false]⟩) := by
  decide

/-- C4 (amended): only the generated-response delivery goes through the
rich-then-plain fallback.  The welcome and privacy replies are single
rich-mode sends whose formatting rejection raises out of the handler
with no plain retry; the transcription-done reply is also a single
rich-mode send, whose rejection is absorbed by the voice handler's
audio-error path, again without a plain retry of that content. -/
theorem C4_only_generated_response_has_plain_fallback :
    (∀ (env : Env) (T : Texts) (s : S),
       env.replyOk T.welcome (some "Markdown") = false →
       start_command env T s =
         (Except.error Err.telegram,
          ⟨s.tempExists, s.trace ++ [Event.reply T.welcome (some "Markdown") false]⟩)) ∧
    (∀ (env : Env) (T : Texts) (s : S),
       env.replyOk T.privacy (some "Markdown") = false →
       privacy_command env T s =
         (Except.error Err.telegram,
          ⟨s.tempExists, s.trace ++ [Event.reply T.privacy (some "Markdown") false]⟩)) ∧
    (∀ (env : Env) (T : Texts) (u analysis : String) (s : S),
       env.completionRes = Except.ok analysis →
       env.replyOk (analysis ++ T.footer_disclaimer) (some "Markdown") = false →
       env.replyOk (analysis ++ T.footer_disclaimer) none = true →
       generate_jungian_response env T u s =
         (Except.ok (),
          ⟨s.tempExists,
           s.trace ++
             [Event.complete T.system_prompt
                (pyFormat T.user_input_wrapper "user_input" u) (Except.ok analysis),
              Event.reply (analysis ++ T.footer_disclaimer) (some "Markdown") false,
              Event.reply (analysis ++ T.footer_disclaimer) none true]⟩)) ∧
    (∀ (env : Env) (T : Texts) (baseDir fileId t : String) (s : S),
       env.replyOk T.processing_audio none = true →
       env.downloadOk = true →
       env.transcribeRes = Except.ok t →
       env.replyOk (pyFormat T.transcription_done "text" t) (some "Markdown") = false →
       env.replyOk T.audio_error none = true →
       handle_voice_message env T baseDir fileId s =
         (Except.ok (),
          ⟨false,
           s.trace ++
             [Event.reply T.processing_audio none true,
              Event.download fileId (temp_ogg_path baseDir) true,
              Event.transcribe (temp_ogg_path baseDir) (Except.ok t),
              Event.reply (pyFormat T.transcription_done "text" t) (some "Markdown") false,
              Event.reply T.audio_error none true]⟩)) := by
  refine ⟨?_, ?_, ?_, ?_⟩
  · intro env T s h
    simp [start_command, reply_text, emit, h]
  · intro env T s h
    simp [privacy_command, reply_text, emit, h]
  · intro env T u analysis s hc hm hp
    rw [gen_spec]
    simp [genRun, hc, hm, hp]
  · intro env T baseDir fileId t s hpa hd ht hf ha
    rw [voice_spec]
    simp [voiceRun, hpa, hd, ht, hf, ha]

/-- C4 witness: the four behaviours at a concrete environment in which
every Markdown send is rejected and every plain send succeeds. -/
theorem C4_witness :
    envMdFail.replyOk testTexts.welcome (some "Markdown") = false ∧
    envMdFail.replyOk testTexts.privacy (some "Markdown") = false ∧
    envMdFail.completionRes = Except.ok "A" ∧
    envMdFail.replyOk ("A" ++ testTexts.footer_disclaimer) none = true ∧
    envMdFail.replyOk testTexts.processing_audio none = true ∧
    envMdFail.downloadOk = true ∧
    envMdFail.transcribeRes = Except.ok "T" ∧
    envMdFail.replyOk testTexts.audio_error none = true ∧
    start_command envMdFail testTexts ⟨true, []⟩ =
      (Except.error Err.telegram,
       ⟨true, [Event.reply testTexts.welcome (some "Markdown") false]⟩) ∧
    privacy_command envMdFail testTexts ⟨true, []⟩ =
      (Except.error Err.telegram,
       ⟨true, [Event.reply testTexts.privacy (some "Markdown") false]⟩) ∧
    generate_jungian_response envMdFail testTexts "u" ⟨true, []⟩ =
      (Except.ok (),
       ⟨true,
        [Event.complete testTexts.system_prompt
           (pyFormat testTexts.user_input_wrapper "user_input" "u") (Except.ok "A"),
         Event.reply ("A" ++ testTexts.footer_disclaimer) (some "Markdown") false,
         Event.reply ("A" ++ testTexts.footer_disclaimer) none true]⟩) ∧
    handle_voice_message envMdFail testTexts "base" "fid" ⟨false, []⟩ =
      (Except.ok (),
       ⟨false,
        [Event.reply testTexts.processing_audio none true,
         Event.download "fid" (temp_ogg_path "base") true,
         Event.transcribe (temp_ogg_path "base") (Except.ok "T"),
         Event.reply (pyFormat testTexts.transcription_done "text" "T") (some "Markdown") false,
         Event.reply testTexts.audio_error none true]⟩) :=
  ⟨rfl, rfl, rfl, rfl, rfl, rfl, rfl, rfl,
   C4_only_generated_response_has_plain_fallback.1 envMdFail testTexts ⟨true, []⟩ rfl,
   C4_only_generated_response_has_plain_fallback.2.1 envMdFail testTexts ⟨true, []⟩ rfl,
   C4_only_generated_response_has_plain_fallback.2.2.1 envMdFail testTexts "u" "A"
     ⟨true, []⟩ rfl rfl rfl,
   C4_only_generated_response_has_plain_fallback.2.2.2 envMdFail testTexts "base" "fid" "T"
     ⟨false, []⟩ rfl rfl rfl rfl rfl⟩

/-- C5: for an inbound text body, the completion endpoint is invoked
with the system prompt and a user-role message equal to the configured
wrapper template with `user_input` substituted by exactly that body,
and the delivered result is the first completion's text with the
disclaimer footer appended verbatim (bare concatenation), attempted in
rich mode first. -/
theorem C5_text_body_wrapped_and_footer_appended
    (env : Env) (T : Texts) (body analysis : String) (s : S)
    (hca : env.chatActionOk = true)
    (hc : env.completionRes = Except.ok analysis)
    (hm : env.replyOk (analysis ++ T.footer_disclaimer) (some "Markdown") = true) :
    handle_text_message env T body s =
      (Except.ok (),
       ⟨s.tempExists,
        s.trace ++
          [Event.chatAction true,
           Event.complete T.system_prompt
             (pyFormat T.user_input_wrapper "user_input" body) (Except.ok analysis),
           Event.reply (analysis ++ T.footer_disclaimer) (some "Markdown") true]⟩) := by
  rw [text_spec]
  simp [textRun, genRun, hca, hc, hm]

/-- C5 witness: the spec's scenario body, at an all-success
environment. -/
theorem C5_witness :
    envAllOk.chatActionOk = true ∧
    envAllOk.completionRes = Except.ok "A" ∧
    envAllOk.replyOk ("A" ++ testTexts.footer_disclaimer) (some "Markdown") = true ∧
    handle_text_message envAllOk testTexts "Ho fatto un sogno strano" ⟨false, []⟩ =
      (Except.ok (),
       ⟨false,
        [Event.chatAction true,
         Event.complete testTexts.system_prompt
           (pyFormat testTexts.user_input_wrapper "user_input" "Ho fatto un sogno strano")
           (Except.ok "A"),
         Event.reply ("A" ++ testTexts.footer_disclaimer) (some "Markdown") true]⟩) :=
  ⟨rfl, rfl, rfl,
   C5_text_body_wrapped_and_footer_appended envAllOk testTexts
     "Ho fatto un sogno strano" "A" ⟨false, []⟩ rfl rfl rfl⟩

/-- C6: a failure of the download, of the transcription, or of the
transcription-feedback reply is absorbed by the voice handler, which
replies with the audio-error text (the feedback replies themselves
assumed deliverable); in particular when the download fails the trace
is exactly processing-feedback, failed download, audio-error reply, and
no completion call is ever made. -/
theorem C6_voice_failures_absorbed_as_audio_error
    (env : Env) (T : Texts) (baseDir fileId : String) (s : S)
    (hpa : env.replyOk T.processing_audio none = true)
    (ha : env.replyOk T.audio_error none = true)
    (hfail : env.downloadOk = false ∨
      (∃ e, env.transcribeRes = Except.error e) ∨
      (∃ t, env.transcribeRes = Except.ok t ∧
        env.replyOk (pyFormat T.transcription_done "text" t) (some "Markdown") = false)) :
    (handle_voice_message env T baseDir fileId s).1 = Except.ok () ∧
    Event.reply T.audio_error none true ∈
      (handle_voice_message env T baseDir fileId s).2.trace ∧
    (env.downloadOk = false →
      (handle_voice_message env T baseDir fileId s).2.trace =
        s.trace ++
          [Event.reply T.processing_audio none true,
           Event.download fileId (temp_ogg_path baseDir) false,
           Event.reply T.audio_error none true] ∧
      ((handle_voice_message env T baseDir fileId s).2.trace).countP isCompletionCall =
        s.trace.countP isCompletionCall) := by
  rw [voice_spec]
  rcases hfail with hd | ⟨e, ht⟩ | ⟨t, ht, hf⟩
  · simp [voiceRun, isCompletionCall, List.countP_append, List.countP_cons,
      hpa, ha, hd]
  · cases hd : env.downloadOk <;>
      simp [voiceRun, isCompletionCall, List.countP_append, List.countP_cons,
        hpa, ha, hd, ht]
  · cases hd : env.downloadOk <;>
      simp [voiceRun, isCompletionCall, List.countP_append, List.countP_cons,
        hpa, ha, hd, ht, hf]

/-- C6 witness: concrete run whose download fails. -/
theorem C6_witness :
    envDlFail.replyOk testTexts.processing_audio none = true ∧
    envDlFail.replyOk testTexts.audio_error none = true ∧
    envDlFail.downloadOk = false ∧
    ((handle_voice_message envDlFail testTexts "base" "fid" ⟨false, []⟩).1 = Except.ok () ∧
     (handle_voice_message envDlFail testTexts "base" "fid" ⟨false, []⟩).2.trace =
       [Event.reply testTexts.processing_audio none true,
        Event.download "fid" (temp_ogg_path "base") false,
        Event.reply testTexts.audio_error none true] ∧
     ((handle_voice_message envDlFail testTexts "base" "fid" ⟨false, []⟩).2.trace).countP
        isCompletionCall = 0) := by
  have h := C6_voice_failures_absorbed_as_audio_error envDlFail testTexts "base" "fid"
    ⟨false, []⟩ rfl rfl (Or.inl rfl)
  refine ⟨rfl, rfl, rfl, h.1, ?_, ?_⟩
  · have := (h.2.2 rfl).1
    simpa using this
  · have := (h.2.2 rfl).2
    simpa using this

/-- C7 counterexample: a run in which the typing-indicator emission
fails — the text handler raises, the body is never forwarded to the
generation routine, and the user receives no reply, so the indicator is
not best-effort. -/
theorem C7_counterexample :
    handle_text_message envActionFail testTexts "x" ⟨false, []⟩ =
      (Except.error Err.telegram, ⟨false, [Event.chatAction false]⟩) := by
  decide

/-- C7 (amended): the typing-indicator emission is unprotected: when it
fails, the error propagates out of the text handler and the body is not
forwarded (no completion call, no reply); the body reaches the
generation routine only when the indicator succeeds. -/
theorem C7_typing_indicator_failure_propagates
    (env : Env) (T : Texts) (u : String) (s : S) :
    (env.chatActionOk = false →
       handle_text_message env T u s =
         (Except.error Err.telegram,
          ⟨s.tempExists, s.trace ++ [Event.chatAction false]⟩)) ∧
    (env.chatActionOk = true →
       (handle_text_message env T u s).2.trace =
         s.trace ++ Event.chatAction true :: (genRun env T u).2) := by
  constructor
  · intro h
    rw [text_spec]
    simp [textRun, h]
  · intro h
    rw [text_spec]
    simp [textRun, h]

/-- C7 witness: both branches at concrete environments. -/
theorem C7_witness :
    envActionFail.chatActionOk = false ∧
    envAllOk.chatActionOk = true ∧
    handle_text_message envActionFail testTexts "z" ⟨false, []⟩ =
      (Except.error Err.telegram, ⟨false, [Event.chatAction false]⟩) ∧
    (handle_text_message envAllOk testTexts "z" ⟨false, []⟩).2.trace =
      Event.chatAction true :: (genRun envAllOk testTexts "z").2 := by
  refine ⟨rfl, rfl, ?_, ?_⟩
  · have := (C7_typing_indicator_failure_propagates envActionFail testTexts "z"
      ⟨false, []⟩).1 rfl
    simpa using this
  · have := (C7_typing_indicator_failure_propagates envAllOk testTexts "z"
      ⟨false, []⟩).2 rfl
    simpa using this

/-- C8 counterexample: the empty JSON object parses, every key the
dispatch core references is absent from it, and yet `load_texts`
returns it successfully — startup does not fail fast on missing keys. -/
theorem C8_counterexample :
    load_texts (ResourceFile.parsed []) = Except.ok [] ∧
    referencedKeys.all (fun sk => (lookupKey [] sk.1 sk.2).isNone) = true := by
  constructor
  · rfl
  · decide

/-- C8 (amended): startup aborts only when the resource file is missing
or is not valid JSON; `load_texts` performs no key validation, so a
bundle missing referenced keys loads successfully, and a missing key
can only surface later, when a handler dereferences it. -/
theorem C8_startup_validates_only_file_and_json :
    (∀ raw : RawTexts, load_texts (ResourceFile.parsed raw) = Except.ok raw) ∧
    load_texts ResourceFile.missingFile = Except.error Err.fileNotFound ∧
    load_texts ResourceFile.badJson = Except.error Err.jsonDecode :=
  ⟨fun _ => rfl, rfl, rfl⟩

/-! ### Structure of the generation trace, used by the ordering and
path claims -/

theorem genRun_coreKinds (env : Env) (T : Texts) (u : String) :
    coreKinds (genRun env T u).2 = [2] := by
  unfold genRun
  cases hc : env.completionRes with
  | error e => simp [coreKinds, hc]
  | ok analysis =>
    cases hm : env.replyOk (analysis ++ T.footer_disclaimer) (some "Markdown") with
    | true => simp [coreKinds, hc, hm]
    | false =>
      cases hp : env.replyOk (analysis ++ T.footer_disclaimer) none <;>
        simp [coreKinds, hc, hm, hp]

theorem genRun_no_download (env : Env) (T : Texts) (u : String) :
    downloadPaths (genRun env T u).2 = [] := by
  unfold genRun
  cases hc : env.completionRes with
  | error e => simp [downloadPaths, hc]
  | ok analysis =>
    cases hm : env.replyOk (analysis ++ T.footer_disclaimer) (some "Markdown") with
    | true => simp [downloadPaths, hc, hm]
    | false =>
      cases hp : env.replyOk (analysis ++ T.footer_disclaimer) none <;>
        simp [downloadPaths, hc, hm, hp]

theorem genRun_starts (env : Env) (T : Texts) (u analysis : String)
    (hc : env.completionRes = Except.ok analysis) :
    ∃ rest,
      (genRun env T u).2 =
        Event.complete T.system_prompt
            (pyFormat T.user_input_wrapper "user_input" u) (Except.ok analysis) ::
          Event.reply (analysis ++ T.footer_disclaimer) (some "Markdown")
            (env.replyOk (analysis ++ T.footer_disclaimer) (some "Markdown")) ::
          rest := by
  unfold genRun
  cases hm : env.replyOk (analysis ++ T.footer_disclaimer) (some "Markdown") with
  | true => exact ⟨[], by simp [hc, hm]⟩
  | false =>
    cases hp : env.replyOk (analysis ++ T.footer_disclaimer) none with
    | true =>
        exact ⟨[Event.reply (analysis ++ T.footer_disclaimer) none true], by simp [hc, hm, hp]⟩
    | false =>
        exact ⟨[Event.reply (analysis ++ T.footer_disclaimer) none false,
                Event.reply T.generic_error none (env.replyOk T.generic_error none)],
               by simp [hc, hm, hp]⟩

theorem coreKinds_nil : coreKinds [] = [] := rfl

theorem coreKinds_append (l1 l2 : List Event) :
    coreKinds (l1 ++ l2) = coreKinds l1 ++ coreKinds l2 := by
  simp [coreKinds]

theorem coreKinds_reply (c : String) (m : Option String) (b : Bool) (l : List Event) :
    coreKinds (Event.reply c m b :: l) = coreKinds l := by
  simp [coreKinds, List.filterMap_cons]

theorem coreKinds_download (fid p : String) (b : Bool) (l : List Event) :
    coreKinds (Event.download fid p b :: l) = 0 :: coreKinds l := by
  simp [coreKinds, List.filterMap_cons]

theorem coreKinds_transcribe (p : String) (r : Except String String) (l : List Event) :
    coreKinds (Event.transcribe p r :: l) = 1 :: coreKinds l := by
  simp [coreKinds, List.filterMap_cons]

theorem coreKinds_complete (sm um : String) (r : Except String String) (l : List Event) :
    coreKinds (Event.complete sm um r :: l) = 2 :: coreKinds l := by
  simp [coreKinds, List.filterMap_cons]

theorem voice_core_order (env : Env) (T : Texts) (baseDir fileId : String) (tmp : Bool) :
    seqOK (coreKinds ((handle_voice_message env T baseDir fileId ⟨tmp, []⟩).2.trace)) = true := by
  rw [voice_spec]
  unfold voiceRun
  cases hp : env.replyOk T.processing_audio none with
  | false =>
      simp [coreKinds_reply, coreKinds_nil, seqOK, hp]
  | true =>
    cases hd : env.downloadOk with
    | false =>
        simp [coreKinds_reply, coreKinds_download, coreKinds_nil, seqOK, hp, hd]
    | true =>
      cases ht : env.transcribeRes with
      | error e =>
          simp [coreKinds_reply, coreKinds_download, coreKinds_transcribe, coreKinds_nil,
            seqOK, hp, hd, ht]
      | ok t =>
        cases hf : env.replyOk (pyFormat T.transcription_done "text" t) (some "Markdown") with
        | false =>
            simp [coreKinds_reply, coreKinds_download, coreKinds_transcribe, coreKinds_nil,
              seqOK, hp, hd, ht, hf]
        | true =>
          cases hg : (genRun env T t).1 with
          | ok u =>
              simp [coreKinds_reply, coreKinds_download, coreKinds_transcribe,
                coreKinds_append, coreKinds_nil, genRun_coreKinds, seqOK, hp, hd, ht, hf, hg]
          | error e =>
              simp [coreKinds_reply, coreKinds_download, coreKinds_transcribe,
                coreKinds_append, coreKinds_nil, genRun_coreKinds, seqOK, hp, hd, ht, hf, hg]

theorem voice_head_is_processing_feedback
    (env : Env) (T : Texts) (baseDir fileId : String) (tmp : Bool)
    (h : coreKinds ((handle_voice_message env T baseDir fileId ⟨tmp, []⟩).2.trace) ≠ []) :
    ((handle_voice_message env T baseDir fileId ⟨tmp, []⟩).2.trace).head? =
      some (Event.reply T.processing_audio none true) := by
  rw [voice_spec] at h ⊢
  unfold voiceRun at h ⊢
  cases hp : env.replyOk T.processing_audio none with
  | false =>
      rw [hp] at h
      simp [coreKinds_reply, coreKinds_nil] at h
  | true =>
    cases hd : env.downloadOk with
    | false => simp [hp, hd]
    | true =>
      cases ht : env.transcribeRes with
      | error e => simp [hp, hd, ht]
      | ok t =>
        cases hf : env.replyOk (pyFormat T.transcription_done "text" t) (some "Markdown") with
        | false => simp [hp, hd, ht, hf]
        | true =>
          cases hg : (genRun env T t).1 with
          | ok u => simp [hp, hd, ht, hf, hg]
          | error e => simp [hp, hd, ht, hf, hg]

theorem voice_completion_precedes_delivery_of_appended_text
    (env : Env) (T : Texts) (baseDir fileId : String) (tmp : Bool)
    (tr analysis : String)
    (htr : env.transcribeRes = Except.ok tr)
    (hcm : env.completionRes = Except.ok analysis)
    (hcount : ((handle_voice_message env T baseDir fileId ⟨tmp, []⟩).2.trace).countP
        isCompletionCall ≠ 0) :
    List.Sublist
      [Event.complete T.system_prompt (pyFormat T.user_input_wrapper "user_input" tr)
         (Except.ok analysis),
       Event.reply (analysis ++ T.footer_disclaimer) (some "Markdown")
         (env.replyOk (analysis ++ T.footer_disclaimer) (some "Markdown"))]
      ((handle_voice_message env T baseDir fileId ⟨tmp, []⟩).2.trace) := by
  rw [voice_spec] at hcount ⊢
  unfold voiceRun at hcount ⊢
  cases hp : env.replyOk T.processing_audio none with
  | false =>
      simp [hp, List.countP_cons, List.countP_nil, isCompletionCall] at hcount
  | true =>
    cases hd : env.downloadOk with
    | false =>
        simp [hp, hd, List.countP_cons, List.countP_nil, isCompletionCall] at hcount
    | true =>
      cases ht : env.transcribeRes with
      | error e => rw [ht] at htr; exact absurd htr (by simp)
      | ok t =>
        obtain rfl : tr = t := (Except.ok.inj (htr.symm.trans ht))
        cases hf : env.replyOk (pyFormat T.transcription_done "text" tr) (some "Markdown") with
        | false =>
            simp [hp, hd, ht, hf, List.countP_cons, List.countP_nil,
              isCompletionCall] at hcount
        | true =>
          obtain ⟨rest, hrest⟩ := genRun_starts env T tr analysis hcm
          cases hg : (genRun env T tr).1 with
          | ok u =>
              simp only [hp, hd, ht, hf, hg]
              simp [hrest]
              apply List.Sublist.cons
              apply List.Sublist.cons
              apply List.Sublist.cons
              apply List.Sublist.cons
              apply List.Sublist.cons₂
              apply List.Sublist.cons₂
              exact List.nil_sublist _
          | error e =>
              simp only [hp, hd, ht, hf, hg]
              simp [hrest]
              apply List.Sublist.cons
              apply List.Sublist.cons
              apply List.Sublist.cons
              apply List.Sublist.cons
              apply List.Sublist.cons₂
              apply List.Sublist.cons₂
              exact List.nil_sublist _

/-- C9: within one voice update the steps happen strictly in sequence:
the trace's core remote steps (download, transcription, completion)
occur in pipeline order, each at most once; any core step is preceded
by the successful processing-audio feedback reply, which is the very
first event of the handler's trace; and the completion event with
result `analysis` precedes the delivery attempt whose content is
`analysis` with the disclaimer appended. -/
theorem C9_voice_steps_strictly_ordered
    (env : Env) (T : Texts) (baseDir fileId : String) (tmp : Bool) :
    seqOK (coreKinds ((handle_voice_message env T baseDir fileId ⟨tmp, []⟩).2.trace)) = true ∧
    (coreKinds ((handle_voice_message env T baseDir fileId ⟨tmp, []⟩).2.trace) ≠ [] →
      ((handle_voice_message env T baseDir fileId ⟨tmp, []⟩).2.trace).head? =
        some (Event.reply T.processing_audio none true)) ∧
    (∀ tr analysis : String,
      env.transcribeRes = Except.ok tr →
      env.completionRes = Except.ok analysis →
      ((handle_voice_message env T baseDir fileId ⟨tmp, []⟩).2.trace).countP
          isCompletionCall ≠ 0 →
      List.Sublist
        [Event.complete T.system_prompt (pyFormat T.user_input_wrapper "user_input" tr)
           (Except.ok analysis),
         Event.reply (analysis ++ T.footer_disclaimer) (some "Markdown")
           (env.replyOk (analysis ++ T.footer_disclaimer) (some "Markdown"))]
        ((handle_voice_message env T baseDir fileId ⟨tmp, []⟩).2.trace)) :=
  ⟨voice_core_order env T baseDir fileId tmp,
   voice_head_is_processing_feedback env T baseDir fileId tmp,
   fun tr analysis htr hcm hcount =>
     voice_completion_precedes_delivery_of_appended_text env T baseDir fileId tmp
       tr analysis htr hcm hcount⟩

/-- C9 witness: the ordering facts at a concrete all-success run. -/
theorem C9_witness :
    seqOK (coreKinds ((handle_voice_message envAllOk testTexts "base" "fid"
        ⟨false, []⟩).2.trace)) = true ∧
    ((handle_voice_message envAllOk testTexts "base" "fid" ⟨false, []⟩).2.trace).head? =
      some (Event.reply testTexts.processing_audio none true) ∧
    List.Sublist
      [Event.complete testTexts.system_prompt
         (pyFormat testTexts.user_input_wrapper "user_input" "T") (Except.ok "A"),
       Event.reply ("A" ++ testTexts.footer_disclaimer) (some "Markdown")
         (envAllOk.replyOk ("A" ++ testTexts.footer_disclaimer) (some "Markdown"))]
      ((handle_voice_message envAllOk testTexts "base" "fid" ⟨false, []⟩).2.trace) :=
  ⟨(C9_voice_steps_strictly_ordered envAllOk testTexts "base" "fid" false).1,
   (C9_voice_steps_strictly_ordered envAllOk testTexts "base" "fid" false).2.1 (by decide),
   (C9_voice_steps_strictly_ordered envAllOk testTexts "base" "fid" false).2.2 "T" "A"
     rfl rfl (by decide)⟩

theorem downloadPaths_append (l1 l2 : List Event) :
    downloadPaths (l1 ++ l2) = downloadPaths l1 ++ downloadPaths l2 := by
  simp [downloadPaths]

theorem voiceRun_downloadPaths (env : Env) (T : Texts) (baseDir fileId : String)
    (tmp : Bool) :
    downloadPaths (voiceRun env T baseDir fileId tmp).2.2 = [] ∨
    downloadPaths (voiceRun env T baseDir fileId tmp).2.2 = [temp_ogg_path baseDir] := by
  unfold voiceRun
  cases hp : env.replyOk T.processing_audio none with
  | false => exact Or.inl (by simp [downloadPaths, List.filterMap_cons, hp])
  | true =>
    cases hd : env.downloadOk with
    | false => exact Or.inr (by simp [downloadPaths, List.filterMap_cons, hp, hd])
    | true =>
      cases ht : env.transcribeRes with
      | error e => exact Or.inr (by simp [downloadPaths, List.filterMap_cons, hp, hd, ht])
      | ok t =>
        cases hf : env.replyOk (pyFormat T.transcription_done "text" t) (some "Markdown") with
        | false =>
            exact Or.inr (by simp [downloadPaths, List.filterMap_cons, hp, hd, ht, hf])
        | true =>
          cases hg : (genRun env T t).1 with
          | ok u =>
              refine Or.inr ?_
              simp only [hp, hd, ht, hf, hg, if_true]
              simp only [downloadPaths_append, genRun_no_download]
              simp [downloadPaths, List.filterMap_cons]
          | error e =>
              refine Or.inr ?_
              simp only [hp, hd, ht, hf, hg, if_true]
              simp only [downloadPaths_append, genRun_no_download]
              simp [downloadPaths, List.filterMap_cons]

/-- C10: every download call of the voice handler uses the constant
path `BASE_DIR / "temp_voice.ogg"`, whatever the update's file
reference, environment, or bundle, so any two voice-handler runs of the
same process use the identical artifact path. -/
theorem C10_constant_temp_path
    (env env2 : Env) (T T2 : Texts) (baseDir fileId fileId2 : String) (tmp tmp2 : Bool) :
    (downloadPaths ((handle_voice_message env T baseDir fileId ⟨tmp, []⟩).2.trace)).all
      (fun p => p == temp_ogg_path baseDir) = true ∧
    ((downloadPaths ((handle_voice_message env T baseDir fileId ⟨tmp, []⟩).2.trace)).all
      (fun p =>
        (downloadPaths ((handle_voice_message env2 T2 baseDir fileId2 ⟨tmp2, []⟩).2.trace)).all
          (fun q => p == q))) = true := by
  rw [voice_spec, voice_spec]
  rcases voiceRun_downloadPaths env T baseDir fileId tmp with h1 | h1 <;>
    rcases voiceRun_downloadPaths env2 T2 baseDir fileId2 tmp2 with h2 | h2 <;>
      simp [h1, h2]

end Bot
